import Mathlib

/-!
Shallow embedding of the micro-scraper API route (src/app/page.tsx, server part):
URL validation, the deadline guard `withTimeout`, the navigation retrier
`navigateWithRetry`, the page extractor `extractPageMetadata`, and the request
handler `GET`.  Browser-capability effects (launching Chromium, navigating,
waiting for network idle, evaluating the DOM query, closing the browser) are
modelled by an oracle recording the outcome of each external call; promise
settlement order for the deadline race is modelled by an explicit event list.
-/

deriving instance DecidableEq for Except

namespace Scraper

/-- A JavaScript thrown value: the handler's own `RequestTimeoutError`, an
ordinary `Error` carrying a message, or a thrown non-`Error` value. -/
inductive JsError where
  | requestTimeout
  | error (message : String)
  | thrown (value : String)
deriving DecidableEq, Repr

/-- The `instanceof Error` test used by the retrier's fallback throw. -/
def isErrorInstance : JsError → Bool
  | .thrown _ => false
  | _ => true

/-! ### Whitespace sanitisation: `sanitize = (value) => (value ?? "").replace(/\s+/g, " ").trim()` -/

/-- Characters matched by the JavaScript regex class `\s` (and removed by
`String.prototype.trim`). -/
def isJsWhitespace (c : Char) : Bool :=
  c = ' ' || c = '\t' || c = '\n' || c = '\r' ||
  c.val = 0x0b || c.val = 0x0c || c.val = 0xa0 || c.val = 0x1680 ||
  (0x2000 ≤ c.val && c.val ≤ 0x200a) ||
  c.val = 0x2028 || c.val = 0x2029 || c.val = 0x202f ||
  c.val = 0x205f || c.val = 0x3000 || c.val = 0xfeff

/-- `replace(/\s+/g, " ")` over a character list: each maximal run of
whitespace becomes a single space.  The boolean tracks whether the previous
character belonged to a whitespace run already replaced. -/
def collapseWsGo (prevWs : Bool) : List Char → List Char
  | [] => []
  | c :: rest =>
    if isJsWhitespace c then
      if prevWs then collapseWsGo true rest
      else ' ' :: collapseWsGo true rest
    else c :: collapseWsGo false rest

/-- `replace(/\s+/g, " ")`. -/
def collapseWs (l : List Char) : List Char := collapseWsGo false l

/-- `String.prototype.trim`: drop whitespace from both ends. -/
def jsTrim (l : List Char) : List Char :=
  ((l.dropWhile isJsWhitespace).reverse.dropWhile isJsWhitespace).reverse

/-- `const sanitize = (value?: string | null) => (value ?? "").replace(/\s+/g, " ").trim();` -/
def sanitize (value : Option String) : String :=
  ⟨jsTrim (collapseWs (value.getD "").data)⟩

/-- Two adjacent characters are not both whitespace. -/
def NoWsPair (a b : Char) : Prop := ¬(isJsWhitespace a ∧ isJsWhitespace b)

/-- A string is whitespace-normalized: every whitespace character in it is a
plain space, no two adjacent characters are both whitespace (runs are
collapsed), and it neither starts nor ends with whitespace. -/
def NormalizedStr (s : String) : Prop :=
  (∀ c ∈ s.data, isJsWhitespace c → c = ' ') ∧
  s.data.Chain' NoWsPair ∧
  (∀ c, s.data.head? = some c → isJsWhitespace c = false) ∧
  (∀ c, s.data.getLast? = some c → isJsWhitespace c = false)

/-! ### Navigation retrier: `navigateWithRetry(page, url, attempts = 2)` -/

/-- A navigation response descriptor: `page.goto` resolves with a response
(here just its HTTP status code) or `null` (e.g. fragment-only navigation). -/
abbrev NavResponse := Option Nat

/-- Outcome of one `navigateWithRetry` call: the value returned or error
thrown, the attempt numbers on which `page.goto` was invoked (in order), and
whether the fallback `throw` after the loop was reached. -/
structure NavRun where
  result : Except JsError NavResponse
  calls : List Int
  usedFallback : Bool
deriving Repr

/-- The `for (let attempt = 1; attempt <= attempts; attempt += 1)` loop of
`navigateWithRetry`.  `goto` gives the settled outcome of `page.goto` on each
attempt; `lastError` is the mutable `let lastError` binding; the `fuel`
argument counts the iterations still allowed by the loop guard
`attempt <= attempts`, namely `(attempts + 1 - attempt).toNat`, so fuel `0`
is exactly the guard failing.  A successful attempt returns its response at
once; a failing final attempt rethrows its error from inside the loop
(`if (attempt === attempts) throw error`); leaving the loop reaches the
fallback
`throw (lastError instanceof Error ? lastError : new Error("Navigation failed"))`. -/
def navLoop (goto : Int → Except JsError NavResponse) (attempts : Int) :
    Int → Nat → Option JsError → NavRun
  | _attempt, 0, lastError =>
    { result := .error (match lastError with
        | some e => if isErrorInstance e then e else .error "Navigation failed"
        | none => .error "Navigation failed")
    , calls := [], usedFallback := true }
  | attempt, fuel + 1, _lastError =>
    match goto attempt with
    | .ok r => { result := .ok r, calls := [attempt], usedFallback := false }
    | .error e =>
      if attempt = attempts then
        { result := .error e, calls := [attempt], usedFallback := false }
      else
        let rest := navLoop goto attempts (attempt + 1) fuel (some e)
        { rest with calls := attempt :: rest.calls }

/-- `navigateWithRetry(page, url, attempts = 2)`: run the attempt loop from
attempt 1 with no error recorded yet; the guard `1 <= attempts` admits
`attempts.toNat` iterations. -/
def navigateWithRetry (goto : Int → Except JsError NavResponse)
    (attempts : Int := 2) : NavRun :=
  navLoop goto attempts 1 attempts.toNat none

/-! ### Page extractor: `extractPageMetadata(url)` -/

/-- The raw document state read by the `page.evaluate` query: the document
title, the `content` attribute of `meta[name="description"]` (absent when the
element or the attribute is missing), likewise for
`meta[property="og:description"]`, and the `textContent` of the first `h1`. -/
structure RawDom where
  title : Option String
  metaName : Option String
  ogDescription : Option String
  h1Text : Option String
deriving DecidableEq, Repr

/-- The object literal returned by the `page.evaluate` callback. -/
structure EvalData where
  title : String
  metaDescription : String
  h1 : String
deriving DecidableEq, Repr

/-- The `page.evaluate` callback body: `document.title ?? ""`, the
`meta[name="description"]` content falling back to `og:description` falling
back to `""` via the `??` chain, and the first `h1` text falling back to `""`. -/
def pageEvaluate (dom : RawDom) : EvalData :=
  { title := dom.title.getD ""
  , metaDescription := dom.metaName.getD (dom.ogDescription.getD "")
  , h1 := dom.h1Text.getD "" }

/-- Settled outcomes of the external browser-capability calls made during one
extraction: `chromium.launch`, `instance.newContext`, `context.newPage`,
`page.goto` per attempt, `page.waitForLoadState("networkidle")` (an error
means the idle wait timed out), the `page.evaluate` DOM query, and
`instance.close`. -/
structure BrowserOracle where
  launch : Except JsError Unit
  newContext : Except JsError Unit
  newPage : Except JsError Unit
  goto : Int → Except JsError NavResponse
  networkIdle : Except JsError Unit
  evalDom : Except JsError RawDom
  close : Except JsError Unit

/-- The scraped metadata record (`PageResponse` in the source). -/
structure PageResponse where
  title : String
  metaDescription : String
  h1 : String
  status : Nat
deriving DecidableEq, Repr

/-- Outcome of one `extractPageMetadata` call: the value returned or the error
propagated, plus how many times `chromium.launch` was invoked, which `page.goto`
attempts ran, and how many times `instance.close` was invoked. -/
structure ExtractRun where
  result : Except JsError PageResponse
  launchCalls : Nat
  navCalls : List Int
  closeCalls : Nat
deriving Repr

/-- The `try` block of `extractPageMetadata` after a successful launch,
paired with the `page.goto` attempts it performed: create context and page,
navigate with retry (two attempts), await the network-idle wait whose failure
is swallowed by `.catch(...)`, run the DOM query, sanitize the three string
fields, and default `status` to 200 when `response` is `null`. -/
def extractAttempt (o : BrowserOracle) : Except JsError PageResponse × List Int :=
  match o.newContext with
  | .error e => (.error e, [])
  | .ok _ =>
    match o.newPage with
    | .error e => (.error e, [])
    | .ok _ =>
      let nav := navigateWithRetry o.goto 2
      match nav.result with
      | .error e => (.error e, nav.calls)
      | .ok response =>
        match o.networkIdle with
        | .ok _ => navEval o response nav.calls
        | .error _ => navEval o response nav.calls
where
  /-- The steps after the (possibly timed-out) network-idle wait. -/
  navEval (o : BrowserOracle) (response : NavResponse) (calls : List Int) :
      Except JsError PageResponse × List Int :=
    match o.evalDom with
    | .error e => (.error e, calls)
    | .ok dom =>
      let data := pageEvaluate dom
      (.ok { title := sanitize (some data.title)
           , metaDescription := sanitize (some data.metaDescription)
           , h1 := sanitize (some data.h1)
           , status := response.getD 200 }, calls)

/-- `extractPageMetadata`: `let instance = null; try { instance = await
chromium.launch(...); ... } finally { if (instance) await
instance.close().catch(...) }`.  When the launch itself throws, `instance` is
still `null` and the `finally` block closes nothing; otherwise `close` is
invoked exactly once and its failure is swallowed by `.catch`, so the `try`
block's outcome is always the primary outcome. -/
def extractPageMetadata (o : BrowserOracle) : ExtractRun :=
  match o.launch with
  | .error e => { result := .error e, launchCalls := 1, navCalls := [], closeCalls := 0 }
  | .ok _ =>
    let body := extractAttempt o
    match o.close with
    | .ok _ => { result := body.1, launchCalls := 1, navCalls := body.2, closeCalls := 1 }
    | .error _ => { result := body.1, launchCalls := 1, navCalls := body.2, closeCalls := 1 }

/-! ### Deadline guard: `withTimeout(promise, timeout)` -/

/-- The two callbacks racing inside `withTimeout`: the `setTimeout` timer
firing, and the wrapped promise settling (running its `.then`/`.catch`
handler). -/
inductive GuardEvent where
  | timerFires
  | opSettles
deriving DecidableEq, Repr

/-- State of the promise constructed by `withTimeout`: whether (and how) it
has settled, whether the timer is still pending (`clearTimeout` not yet
called, timer not yet fired), and whether the guard has cancelled the wrapped
operation (the source never does). -/
structure GuardState (α : Type) where
  settled : Option (Except JsError α)
  timerActive : Bool
  opCancelled : Bool
deriving Repr

/-- State just after `withTimeout` installs the timer and the
`.then`/`.catch` handlers. -/
def guardInit {α : Type} : GuardState α :=
  { settled := none, timerActive := true, opCancelled := false }

/-- One event of the race.  The timer callback, when the timer is still
pending, rejects with `RequestTimeoutError` — but a promise settles only
once, so an already-settled state is kept.  The operation's handler calls
`clearTimeout(timer)` and then resolves/rejects with the operation's outcome,
again only if nothing settled earlier.  Nothing ever cancels the operation. -/
def guardStep {α : Type} (opOutcome : Except JsError α) (s : GuardState α) :
    GuardEvent → GuardState α
  | .timerFires =>
    if s.timerActive then
      { s with timerActive := false
             , settled := match s.settled with
                 | some r => some r
                 | none => some (.error .requestTimeout) }
    else s
  | .opSettles =>
    { s with timerActive := false
           , settled := match s.settled with
               | some r => some r
               | none => some opOutcome }

/-- `withTimeout(promise, timeout)`: the guard promise after the race events
have run in the given order, where `opOutcome` is how the wrapped promise
settles. -/
def withTimeout {α : Type} (order : List GuardEvent)
    (opOutcome : Except JsError α) : GuardState α :=
  order.foldl (guardStep opOutcome) guardInit

/-! ### Request handler: `GET(request)` -/

/-- A JSON response body: either an error object `{ error: message }` or the
metadata payload. -/
inductive ResponseBody where
  | errorBody (message : String)
  | payload (p : PageResponse)
deriving DecidableEq, Repr

/-- An HTTP response produced by the handler. -/
structure ScrapeResponse where
  status : Nat
  body : ResponseBody
deriving DecidableEq, Repr

/-- `invalidUrlResponse()`: 400 with `{ error: "Invalid URL" }`. -/
def invalidUrlResponse : ScrapeResponse :=
  { status := 400, body := .errorBody "Invalid URL" }

/-- `timeoutResponse()`: 504 with `{ error: "Timeout" }`. -/
def timeoutResponse : ScrapeResponse :=
  { status := 504, body := .errorBody "Timeout" }

/-- The URL record produced by the platform's `new URL(value)` constructor;
only the `protocol` field is consulted. -/
structure ParsedUrl where
  protocol : String
deriving DecidableEq, Repr

/-- `isValidHttpUrl(value)`: `new URL(value)` (modelled by the platform
parse capability; `none` means the constructor threw) must succeed and its
protocol must be `http:` or `https:`. -/
def isValidHttpUrl (parse : String → Option ParsedUrl) (value : String) : Bool :=
  match parse value with
  | some parsed => ["http:", "https:"].contains parsed.protocol
  | none => false

/-- Observable outcome of one `GET` call: the HTTP response (none while the
guard promise never settles) plus the browser-effect counters of the
extraction it ran, if any. -/
structure GetRun where
  response : Option ScrapeResponse
  launchCalls : Nat
  navCalls : List Int
  closeCalls : Nat
deriving Repr

/-- `GET(request)`: reject when the `url` query parameter is absent, empty
(`!targetUrl` is true for the empty string) or invalid; otherwise await
`withTimeout(extractPageMetadata(targetUrl), 20000)` and map the settled
outcome — success to a 200 payload, `RequestTimeoutError` to the 504
timeout response, anything else to the generic 500 failure response. -/
def GET (parse : String → Option ParsedUrl) (o : BrowserOracle)
    (guardOrder : List GuardEvent) (targetUrl : Option String) : GetRun :=
  match targetUrl with
  | none => { response := some invalidUrlResponse
            , launchCalls := 0, navCalls := [], closeCalls := 0 }
  | some u =>
    if u = "" || !isValidHttpUrl parse u then
      { response := some invalidUrlResponse
      , launchCalls := 0, navCalls := [], closeCalls := 0 }
    else
      let run := extractPageMetadata o
      let guarded := withTimeout guardOrder run.result
      let resp : Option ScrapeResponse :=
        match guarded.settled with
        | none => none
        | some (.ok payload) => some { status := 200, body := .payload payload }
        | some (.error .requestTimeout) => some timeoutResponse
        | some (.error _) =>
          some { status := 500, body := .errorBody "Unable to complete scrape" }
      { response := resp, launchCalls := run.launchCalls
      , navCalls := run.navCalls, closeCalls := run.closeCalls }

/-! ### Concrete capability stubs for closed runs -/

/-- A `new URL` capability stub: recognises one https URL and one ftp URL,
throws (returns `none`) on everything else. -/
def parseStub : String → Option ParsedUrl := fun s =>
  if s = "https://ok.example/" then some { protocol := "https:" }
  else if s = "ftp://files.example/" then some { protocol := "ftp:" }
  else none

/-- `page.goto` succeeding at once with a status-200 response. -/
def gotoOk : Int → Except JsError NavResponse := fun _ => .ok (some 200)

/-- `page.goto` failing on attempt 1 and succeeding on attempt 2. -/
def gotoRetry : Int → Except JsError NavResponse := fun i =>
  if i = 1 then .error (.error "net::ERR_CONNECTION_RESET") else .ok (some 200)

/-- `page.goto` failing on every attempt. -/
def gotoFail : Int → Except JsError NavResponse :=
  fun _ => .error (.error "net::ERR_NAME_NOT_RESOLVED")

/-- The document of the spec's concrete scenario: title `Example`, no
`meta[name="description"]`, `og:description` with ragged whitespace, one
`<h1>Welcome</h1>`. -/
def exampleDom : RawDom :=
  { title := some "Example", metaName := none
  , ogDescription := some "  A   test site  ", h1Text := some "Welcome" }

/-- A run in which every browser call succeeds. -/
def happyOracle : BrowserOracle :=
  { launch := .ok (), newContext := .ok (), newPage := .ok (), goto := gotoOk
  , networkIdle := .ok (), evalDom := .ok exampleDom, close := .ok () }

/-- A run in which `chromium.launch` itself throws. -/
def launchFailOracle : BrowserOracle :=
  { happyOracle with
    launch := .error (.error "browserType.launch: Executable does not exist") }

/-- A run in which both navigation attempts fail. -/
def navFailOracle : BrowserOracle := { happyOracle with goto := gotoFail }

/-- A run in which the network-idle wait times out. -/
def idleTimeoutOracle : BrowserOracle :=
  { happyOracle with
    networkIdle := .error (.error "page.waitForLoadState: Timeout 5000ms exceeded") }

/-- Race order: the wrapped operation settles before the timer fires. -/
def raceOpFirst : List GuardEvent := [.opSettles, .timerFires]

/-- Race order: the timer fires before the wrapped operation settles. -/
def raceTimerFirst : List GuardEvent := [.timerFires, .opSettles]

/-! ### Deadline-guard lemmas -/

/-- A settled guard promise stays settled with the same outcome after any
further event. -/
theorem guardStep_settled_some {α : Type} (out : Except JsError α)
    (s : GuardState α) (r : Except JsError α) (e : GuardEvent)
    (h : s.settled = some r) : (guardStep out s e).settled = some r := by
  cases e with
  | timerFires => by_cases ht : s.timerActive <;> simp [guardStep, ht, h]
  | opSettles => simp [guardStep, h]

/-- A settled guard promise stays settled with the same outcome after any
sequence of further events. -/
theorem guard_foldl_settled {α : Type} (out : Except JsError α)
    (order : List GuardEvent) : ∀ (s : GuardState α) (r : Except JsError α),
    s.settled = some r → (order.foldl (guardStep out) s).settled = some r := by
  induction order with
  | nil => intro s r h; simpa using h
  | cons e rest ih =>
    intro s r h
    exact ih (guardStep out s e) r (guardStep_settled_some out s r e h)

/-- No guard event ever changes the operation-cancellation flag. -/
theorem guardStep_opCancelled {α : Type} (out : Except JsError α)
    (s : GuardState α) (e : GuardEvent) :
    (guardStep out s e).opCancelled = s.opCancelled := by
  cases e with
  | timerFires => by_cases ht : s.timerActive <;> simp [guardStep, ht]
  | opSettles => simp [guardStep]

/-- The operation-cancellation flag is invariant under any event sequence. -/
theorem guard_foldl_opCancelled {α : Type} (out : Except JsError α)
    (order : List GuardEvent) : ∀ s : GuardState α,
    (order.foldl (guardStep out) s).opCancelled = s.opCancelled := by
  induction order with
  | nil => intro s; rfl
  | cons e rest ih =>
    intro s
    rw [List.foldl_cons, ih (guardStep out s e), guardStep_opCancelled]

/-- Once the timer is cancelled or spent it stays so. -/
theorem guard_foldl_timer_off {α : Type} (out : Except JsError α)
    (order : List GuardEvent) : ∀ s : GuardState α, s.timerActive = false →
    (order.foldl (guardStep out) s).timerActive = false := by
  induction order with
  | nil => intro s h; simpa using h
  | cons e rest ih =>
    intro s h
    refine ih (guardStep out s e) ?_
    cases e with
    | timerFires => simp [guardStep, h]
    | opSettles => simp [guardStep]

/-- When the wrapped operation settles first, the guard promise settles with
exactly the operation's outcome, whatever happens afterwards. -/
theorem withTimeout_opSettles_first {α : Type} (out : Except JsError α)
    (rest : List GuardEvent) :
    (withTimeout (GuardEvent.opSettles :: rest) out).settled = some out := by
  rw [withTimeout, List.foldl_cons]
  exact guard_foldl_settled out rest _ _ (by simp [guardStep, guardInit])

/-- When the timer fires first, the guard promise settles with the
`RequestTimeoutError` signal, whatever happens afterwards. -/
theorem withTimeout_timerFires_first {α : Type} (out : Except JsError α)
    (rest : List GuardEvent) :
    (withTimeout (GuardEvent.timerFires :: rest) out).settled =
      some (Except.error JsError.requestTimeout) := by
  rw [withTimeout, List.foldl_cons]
  exact guard_foldl_settled out rest _ _ (by simp [guardStep, guardInit])

/-- C1: for `withTimeout(promise, timeout)`, if the wrapped operation settles
first its outcome (success or failure) is forwarded unchanged and the timer
is cancelled; if the timer fires first the guard settles with the distinct
`RequestTimeoutError` signal and any later-arriving outcome of the operation
is ignored; the guard never cancels the in-flight operation, whose
browser-side effects are independent of the race order. -/
theorem C1_deadline_guard {α : Type} (out : Except JsError α)
    (rest : List GuardEvent) :
    (withTimeout (GuardEvent.opSettles :: rest) out).settled = some out ∧
    (withTimeout (GuardEvent.opSettles :: rest) out).timerActive = false ∧
    (withTimeout (GuardEvent.timerFires :: rest) out).settled =
      some (Except.error JsError.requestTimeout) ∧
    (∀ order : List GuardEvent, (withTimeout order out).opCancelled = false) ∧
    (∀ (parse : String → Option ParsedUrl) (o : BrowserOracle)
        (order order' : List GuardEvent) (u : Option String),
      (GET parse o order u).launchCalls = (GET parse o order' u).launchCalls ∧
      (GET parse o order u).navCalls = (GET parse o order' u).navCalls ∧
      (GET parse o order u).closeCalls = (GET parse o order' u).closeCalls) := by
  have hstep : guardStep out (guardInit (α := α)) GuardEvent.opSettles =
      { settled := some out, timerActive := false, opCancelled := false } := by
    simp [guardStep, guardInit]
  refine ⟨withTimeout_opSettles_first out rest, ?_,
    withTimeout_timerFires_first out rest, ?_, ?_⟩
  · rw [withTimeout, List.foldl_cons, hstep]
    exact guard_foldl_timer_off out rest _ rfl
  · intro order
    rw [withTimeout, guard_foldl_opCancelled]
    rfl
  · intro parse o order order' u
    cases u with
    | none => exact ⟨rfl, rfl, rfl⟩
    | some v =>
      by_cases hv : v = "" || !isValidHttpUrl parse v <;> simp [GET, hv]

/-! ### Navigation-retrier lemmas -/

/-- Loop invariant of `navLoop`: started anywhere inside the loop bounds with
the fuel matching the guard, the loop never reaches the fallback throw, and it
either returns the response of some in-range `page.goto` success or rethrows
the error of the final attempt. -/
theorem navLoop_spec (goto : Int → Except JsError NavResponse) (attempts : Int) :
    ∀ (fuel : Nat) (attempt : Int) (le : Option JsError), attempt ≤ attempts →
    (fuel : Int) = attempts + 1 - attempt →
    (navLoop goto attempts attempt fuel le).usedFallback = false ∧
    ((∃ i r, attempt ≤ i ∧ i ≤ attempts ∧ goto i = .ok r ∧
        (navLoop goto attempts attempt fuel le).result = .ok r) ∨
     (∃ e, goto attempts = .error e ∧
        (navLoop goto attempts attempt fuel le).result = .error e)) := by
  intro fuel
  induction fuel with
  | zero => intro attempt le h2 hf; exfalso; omega
  | succ n ih =>
    intro attempt le h2 hf
    cases hg : goto attempt with
    | ok r =>
      refine ⟨?_, .inl ⟨attempt, r, le_rfl, h2, hg, ?_⟩⟩ <;> simp [navLoop, hg]
    | error e =>
      by_cases heq : attempt = attempts
      · subst heq
        refine ⟨?_, .inr ⟨e, hg, ?_⟩⟩ <;> simp [navLoop, hg]
      · simp only [navLoop, hg, if_neg heq]
        have := ih (attempt + 1) (some e) (by omega) (by push_cast at hf ⊢; omega)
        refine ⟨this.1, ?_⟩
        rcases this.2 with ⟨i, r, hi1, hi2, hgi, hres⟩ | ⟨e2, hge, hres⟩
        · exact .inl ⟨i, r, by omega, hi2, hgi, hres⟩
        · exact .inr ⟨e2, hge, hres⟩

/-- C2: with `maxAttempts = 2`, a first-attempt success is returned at once
after a single `page.goto` call; a first-attempt failure is recorded and
followed directly by attempt 2, whose success yields the attempt-2 response
with exactly the two calls `[1, 2]` and no third attempt; and when both
attempts fail the attempt-2 error is propagated. -/
theorem C2_navigation_retrier (goto : Int → Except JsError NavResponse) :
    (∀ r, goto 1 = .ok r → navigateWithRetry goto 2 =
      { result := .ok r, calls := [1], usedFallback := false }) ∧
    (∀ e r, goto 1 = .error e → goto 2 = .ok r → navigateWithRetry goto 2 =
      { result := .ok r, calls := [1, 2], usedFallback := false }) ∧
    (∀ e₁ e₂, goto 1 = .error e₁ → goto 2 = .error e₂ → navigateWithRetry goto 2 =
      { result := .error e₂, calls := [1, 2], usedFallback := false }) := by
  refine ⟨?_, ?_, ?_⟩
  · intro r h; simp [navigateWithRetry, navLoop, h]
  · intro e r h1 h2; simp [navigateWithRetry, navLoop, h1, h2]
  · intro e₁ e₂ h1 h2; simp [navigateWithRetry, navLoop, h1, h2]

/-- Witness for C2: a run that fails on attempt 1 and succeeds on attempt 2
returns the attempt-2 response having issued exactly attempts 1 and 2. -/
theorem C2_navigation_retrier_witness :
    gotoRetry 1 = .error (.error "net::ERR_CONNECTION_RESET") ∧
    gotoRetry 2 = .ok (some 200) ∧
    navigateWithRetry gotoRetry 2 =
      { result := .ok (some 200), calls := [1, 2], usedFallback := false } :=
  ⟨rfl, rfl, (C2_navigation_retrier gotoRetry).2.1 _ _ rfl rfl⟩

/-- C9: called with `attempts < 1` the loop guard fails immediately, so
`page.goto` is never invoked and, with no `lastError` recorded, the fallback
`throw new Error("Navigation failed")` fires. -/
theorem C9_no_attempts (goto : Int → Except JsError NavResponse)
    (attempts : Int) (h : attempts < 1) :
    navigateWithRetry goto attempts =
      { result := .error (.error "Navigation failed")
      , calls := [], usedFallback := true } := by
  rw [navigateWithRetry]
  have h0 : attempts.toNat = 0 := by omega
  rw [h0]
  rfl

/-- Witness for C9: at `attempts = 0` no navigation happens and the generic
`Navigation failed` error is thrown. -/
theorem C9_no_attempts_witness :
    (0 : Int) < 1 ∧
    navigateWithRetry gotoOk 0 =
      { result := .error (.error "Navigation failed")
      , calls := [], usedFallback := true } :=
  ⟨by norm_num, C9_no_attempts gotoOk 0 (by norm_num)⟩

/-- C10: with `attempts >= 1` the function either returns the response of one
of the in-range `page.goto` attempts or rethrows, from inside the loop, the
exact error thrown by the final attempt; the fallback throw after the loop is
never reached. -/
theorem C10_fallback_unreachable (goto : Int → Except JsError NavResponse)
    (attempts : Int) (h : 1 ≤ attempts) :
    (navigateWithRetry goto attempts).usedFallback = false ∧
    ((∃ i r, 1 ≤ i ∧ i ≤ attempts ∧ goto i = .ok r ∧
        (navigateWithRetry goto attempts).result = .ok r) ∨
     (∃ e, goto attempts = .error e ∧
        (navigateWithRetry goto attempts).result = .error e)) :=
  navLoop_spec goto attempts attempts.toNat 1 none h (by omega)

/-- Witness for C10: a single-attempt run with an immediately successful
navigation avoids the fallback and returns a `page.goto` response. -/
theorem C10_fallback_unreachable_witness :
    (1 : Int) ≤ 1 ∧
    ((navigateWithRetry gotoOk 1).usedFallback = false ∧
     ((∃ i r, 1 ≤ i ∧ i ≤ (1 : Int) ∧ gotoOk i = .ok r ∧
         (navigateWithRetry gotoOk 1).result = .ok r) ∨
      (∃ e, gotoOk 1 = .error e ∧
         (navigateWithRetry gotoOk 1).result = .error e))) :=
  ⟨le_rfl, C10_fallback_unreachable gotoOk 1 le_rfl⟩

/-! ### Page-extractor lemmas -/

/-- The `try` block of the extractor never consults the teardown capability:
its outcome is the same whatever `instance.close` will do. -/
theorem extractAttempt_close_indep (o : BrowserOracle) (c : Except JsError Unit) :
    extractAttempt { o with close := c } = extractAttempt o := rfl

/-- C3: whenever a session was acquired (`chromium.launch` succeeded), every
exit path of `extractPageMetadata` — success, navigation-retry exhaustion, or
any other raised error — invokes `instance.close` exactly once, and the
teardown outcome (even a teardown failure) never changes the primary result
the caller observes. -/
theorem C3_teardown_once (o : BrowserOracle) (h : o.launch = Except.ok ()) :
    (extractPageMetadata o).closeCalls = 1 ∧
    (∀ c, (extractPageMetadata { o with close := c }).result =
      (extractPageMetadata o).result) := by
  constructor
  · cases hc : o.close <;> simp [extractPageMetadata, h, hc]
  · intro c
    have h' : ({ o with close := c } : BrowserOracle).launch = Except.ok () := h
    cases hc : o.close <;> cases hc' : c <;>
      simp [extractPageMetadata, h, h', hc, hc', extractAttempt_close_indep] <;>
      rfl

/-- Witness for C3: a run with two failed navigation attempts acquires the
session and closes it exactly once, with the primary error preserved under
any teardown outcome. -/
theorem C3_teardown_once_witness :
    navFailOracle.launch = Except.ok () ∧
    ((extractPageMetadata navFailOracle).closeCalls = 1 ∧
     (∀ c, (extractPageMetadata { navFailOracle with close := c }).result =
       (extractPageMetadata navFailOracle).result)) :=
  ⟨rfl, C3_teardown_once navFailOracle rfl⟩

/-- C5: when the post-navigation network-quiescence wait times out, the
extractor still proceeds to the DOM query and returns a metadata record
built from the available DOM state instead of failing. -/
theorem C5_quiescence_degrade (o : BrowserOracle) (dom : RawDom)
    (r : NavResponse) (e : JsError)
    (hL : o.launch = Except.ok ()) (hC : o.newContext = Except.ok ())
    (hP : o.newPage = Except.ok ()) (hG : o.goto 1 = .ok r)
    (hIdle : o.networkIdle = .error e) (hE : o.evalDom = .ok dom) :
    (extractPageMetadata o).result = .ok
      { title := sanitize (some (pageEvaluate dom).title)
      , metaDescription := sanitize (some (pageEvaluate dom).metaDescription)
      , h1 := sanitize (some (pageEvaluate dom).h1)
      , status := r.getD 200 } := by
  cases hc : o.close <;>
    simp [extractPageMetadata, extractAttempt, extractAttempt.navEval,
      navigateWithRetry, navLoop, hL, hC, hP, hG, hIdle, hE, hc]

/-- Witness for C5: a concrete run whose idle wait times out still yields the
sanitized metadata of the example document. -/
theorem C5_quiescence_degrade_witness :
    idleTimeoutOracle.networkIdle =
      .error (.error "page.waitForLoadState: Timeout 5000ms exceeded") ∧
    (extractPageMetadata idleTimeoutOracle).result = .ok
      { title := sanitize (some (pageEvaluate exampleDom).title)
      , metaDescription := sanitize (some (pageEvaluate exampleDom).metaDescription)
      , h1 := sanitize (some (pageEvaluate exampleDom).h1)
      , status := (some 200 : NavResponse).getD 200 } :=
  ⟨rfl, C5_quiescence_degrade idleTimeoutOracle exampleDom (some 200) _
    rfl rfl rfl rfl rfl rfl⟩

/-- Success path of the extractor: with a session, a first-attempt navigation
success and a successful DOM query, the result is the sanitized field record
with the response status defaulting to 200. -/
theorem extract_success (o : BrowserOracle) (dom : RawDom) (r : NavResponse)
    (hL : o.launch = Except.ok ()) (hC : o.newContext = Except.ok ())
    (hP : o.newPage = Except.ok ()) (hG : o.goto 1 = .ok r)
    (hE : o.evalDom = .ok dom) :
    (extractPageMetadata o).result = .ok
      { title := sanitize (some (dom.title.getD ""))
      , metaDescription := sanitize (some (dom.metaName.getD (dom.ogDescription.getD "")))
      , h1 := sanitize (some (dom.h1Text.getD ""))
      , status := r.getD 200 } := by
  cases hi : o.networkIdle <;> cases hc : o.close <;>
    simp [extractPageMetadata, extractAttempt, extractAttempt.navEval,
      pageEvaluate, navigateWithRetry, navLoop, hL, hC, hP, hG, hE, hi, hc]

/-- C8: on the success path the extractor reads the document title, the meta
description with the `og:description` then empty-string fallbacks, the first
`h1` text or empty string, and the navigation response's status code
defaulting to 200; on the spec's concrete scenario it yields exactly
`{ title := "Example", metaDescription := "A test site", h1 := "Welcome",
status := 200 }`. -/
theorem C8_field_extraction (o : BrowserOracle) (dom : RawDom) (r : NavResponse)
    (hL : o.launch = Except.ok ()) (hC : o.newContext = Except.ok ())
    (hP : o.newPage = Except.ok ()) (hG : o.goto 1 = .ok r)
    (hE : o.evalDom = .ok dom) :
    (extractPageMetadata o).result = .ok
      { title := sanitize (some (dom.title.getD ""))
      , metaDescription := sanitize (some (dom.metaName.getD (dom.ogDescription.getD "")))
      , h1 := sanitize (some (dom.h1Text.getD ""))
      , status := r.getD 200 } ∧
    (extractPageMetadata happyOracle).result = .ok
      { title := "Example", metaDescription := "A test site"
      , h1 := "Welcome", status := 200 } := by
  exact ⟨extract_success o dom r hL hC hP hG hE, rfl⟩

/-- Witness for C8: on the example run the hypotheses hold definitionally and
the concrete scenario's expected record is produced. -/
theorem C8_field_extraction_witness :
    happyOracle.goto 1 = .ok (some 200) ∧ happyOracle.evalDom = .ok exampleDom ∧
    (extractPageMetadata happyOracle).result = .ok
      { title := "Example", metaDescription := "A test site"
      , h1 := "Welcome", status := 200 } :=
  ⟨rfl, rfl,
    (C8_field_extraction happyOracle exampleDom (some 200) rfl rfl rfl rfl rfl).2⟩

/-! ### Whitespace-normalization lemmas -/

/-- Unfolding: a whitespace character inside a run already being replaced is
dropped. -/
theorem collapseWsGo_cons_ws_true {a : Char} (rest : List Char)
    (hA : isJsWhitespace a = true) :
    collapseWsGo true (a :: rest) = collapseWsGo true rest := by
  simp [collapseWsGo, hA]

/-- Unfolding: a whitespace character starting a run emits the single
replacement space. -/
theorem collapseWsGo_cons_ws_false {a : Char} (rest : List Char)
    (hA : isJsWhitespace a = true) :
    collapseWsGo false (a :: rest) = ' ' :: collapseWsGo true rest := by
  simp [collapseWsGo, hA]

/-- Unfolding: a non-whitespace character is kept verbatim. -/
theorem collapseWsGo_cons_not {a : Char} (rest : List Char) (prev : Bool)
    (hA : isJsWhitespace a = false) :
    collapseWsGo prev (a :: rest) = a :: collapseWsGo false rest := by
  simp [collapseWsGo, hA]

/-- Every whitespace character surviving the collapse pass is the single
space that replaced a run. -/
theorem collapseWsGo_ws_space (l : List Char) : ∀ (prev : Bool), ∀ c ∈ collapseWsGo prev l,
    isJsWhitespace c → c = ' ' := by
  induction l with
  | nil => intro prev c hc; simp [collapseWsGo] at hc
  | cons a rest ih =>
    intro prev c hc hws
    by_cases hA : isJsWhitespace a
    · cases prev with
      | true =>
        rw [collapseWsGo_cons_ws_true rest hA] at hc
        exact ih true c hc hws
      | false =>
        rw [collapseWsGo_cons_ws_false rest hA, List.mem_cons] at hc
        rcases hc with hc | hc
        · exact hc
        · exact ih true c hc hws
    · rw [collapseWsGo_cons_not rest prev (by simpa using hA), List.mem_cons] at hc
      rcases hc with hc | hc
      · exact absurd (hc ▸ hws) (by simpa using hA)
      · exact ih false c hc hws

/-- After entering a whitespace run (previous character was whitespace), the
collapse pass never emits a leading whitespace character. -/
theorem collapseWsGo_head_true (l : List Char) :
    ∀ c, (collapseWsGo true l).head? = some c → isJsWhitespace c = false := by
  induction l with
  | nil => intro c h; simp [collapseWsGo] at h
  | cons a rest ih =>
    intro c h
    by_cases hA : isJsWhitespace a
    · rw [collapseWsGo_cons_ws_true rest hA] at h
      exact ih c h
    · rw [collapseWsGo_cons_not rest true (by simpa using hA), List.head?_cons] at h
      cases h
      simpa using hA

/-- The collapse pass emits no two adjacent whitespace characters. -/
theorem collapseWsGo_chain (l : List Char) :
    ∀ prev : Bool, (collapseWsGo prev l).Chain' NoWsPair := by
  induction l with
  | nil => intro prev; simp [collapseWsGo]
  | cons a rest ih =>
    intro prev
    by_cases hA : isJsWhitespace a
    · cases prev with
      | true =>
        rw [collapseWsGo_cons_ws_true rest hA]
        exact ih true
      | false =>
        rw [collapseWsGo_cons_ws_false rest hA, List.chain'_cons']
        refine ⟨?_, ih true⟩
        intro b hb
        have hbws := collapseWsGo_head_true rest b hb
        intro hpair
        rw [hbws] at hpair
        exact absurd hpair.2 (by simp)
    · rw [collapseWsGo_cons_not rest prev (by simpa using hA), List.chain'_cons']
      refine ⟨?_, ih false⟩
      intro b _ hpair
      exact absurd hpair.1 (by simpa using hA)

/-- The head of `dropWhile p` does not satisfy `p`. -/
theorem head_dropWhile_not (p : Char → Bool) (l : List Char) :
    ∀ c, (l.dropWhile p).head? = some c → p c = false := by
  induction l with
  | nil => intro c h; simp [List.dropWhile] at h
  | cons a rest ih =>
    intro c h
    by_cases hA : p a
    · rw [List.dropWhile_cons, if_pos hA] at h
      exact ih c h
    · rw [List.dropWhile_cons, if_neg hA, List.head?_cons] at h
      cases h
      simpa using hA

/-- A nonempty suffix has the same last element as the whole list. -/
theorem suffix_getLast? {l' l : List Char} (h : l' <:+ l) (hne : l' ≠ []) :
    l'.getLast? = l.getLast? := by
  obtain ⟨t, rfl⟩ := h
  exact (List.getLast?_append_of_ne_nil t hne).symm

/-- `NoWsPair` is symmetric, so chains of it transfer across `reverse`. -/
theorem chain_noWsPair_reverse {l : List Char} (h : l.Chain' NoWsPair) :
    l.reverse.Chain' NoWsPair := by
  refine List.chain'_reverse.mpr (h.imp ?_)
  intro a b hab hpair
  exact hab ⟨hpair.2, hpair.1⟩

/-- Trimming both ends of a collapsed list yields a fully normalized list:
whitespace only as single interior spaces and none at either end. -/
theorem jsTrim_normalized (m : List Char)
    (hws : ∀ c ∈ m, isJsWhitespace c → c = ' ')
    (hch : m.Chain' NoWsPair) :
    (∀ c ∈ jsTrim m, isJsWhitespace c → c = ' ') ∧
    (jsTrim m).Chain' NoWsPair ∧
    (∀ c, (jsTrim m).head? = some c → isJsWhitespace c = false) ∧
    (∀ c, (jsTrim m).getLast? = some c → isJsWhitespace c = false) := by
  set X := m.dropWhile isJsWhitespace with hX
  set Z := X.reverse.dropWhile isJsWhitespace with hZ
  have hXsuf : X <:+ m := List.dropWhile_suffix _
  have hZsuf : Z <:+ X.reverse := List.dropWhile_suffix _
  have hout : jsTrim m = Z.reverse := rfl
  refine ⟨?_, ?_, ?_, ?_⟩
  · intro c hc
    rw [hout, List.mem_reverse] at hc
    exact hws c (hXsuf.subset (List.mem_reverse.mp (hZsuf.subset hc)))
  · rw [hout]
    exact chain_noWsPair_reverse ((chain_noWsPair_reverse (hch.suffix hXsuf)).suffix hZsuf)
  · intro c hc
    rw [hout, List.head?_reverse] at hc
    have hZne : Z ≠ [] := by
      intro hz; rw [hz] at hc; simp at hc
    rw [suffix_getLast? hZsuf hZne, List.getLast?_reverse] at hc
    exact head_dropWhile_not _ _ c hc
  · intro c hc
    rw [hout, List.getLast?_reverse] at hc
    exact head_dropWhile_not _ _ c hc

/-- `sanitize` always produces a whitespace-normalized string. -/
theorem sanitize_normalized (v : Option String) : NormalizedStr (sanitize v) := by
  have hdata : (sanitize v).data = jsTrim (collapseWs (v.getD "").data) := rfl
  have h := jsTrim_normalized (collapseWs (v.getD "").data)
    (collapseWsGo_ws_space _ false) (collapseWsGo_chain _ false)
  exact ⟨by rw [hdata]; exact h.1, by rw [hdata]; exact h.2.1,
    by rw [hdata]; exact h.2.2.1, by rw [hdata]; exact h.2.2.2⟩

/-- C7: on every successful extraction the three string fields of the
returned record are whitespace-normalized (runs collapsed to single spaces,
no leading or trailing whitespace), and absent source values default to the
empty string. -/
theorem C7_fields_normalized (o : BrowserOracle) (dom : RawDom) (r : NavResponse)
    (hL : o.launch = Except.ok ()) (hC : o.newContext = Except.ok ())
    (hP : o.newPage = Except.ok ()) (hG : o.goto 1 = .ok r)
    (hE : o.evalDom = .ok dom) :
    (∀ p, (extractPageMetadata o).result = .ok p →
      NormalizedStr p.title ∧ NormalizedStr p.metaDescription ∧ NormalizedStr p.h1) ∧
    (∀ v, NormalizedStr (sanitize v)) ∧
    sanitize none = "" ∧
    (dom.title = none → dom.metaName = none → dom.ogDescription = none →
      dom.h1Text = none →
      (extractPageMetadata o).result = .ok
        { title := "", metaDescription := "", h1 := "", status := r.getD 200 }) := by
  refine ⟨?_, sanitize_normalized, rfl, ?_⟩
  · intro p hp
    rw [extract_success o dom r hL hC hP hG hE] at hp
    cases hp
    exact ⟨sanitize_normalized _, sanitize_normalized _, sanitize_normalized _⟩
  · intro hT hM hO hH
    rw [extract_success o dom r hL hC hP hG hE, hT, hM, hO, hH]
    rfl

/-- Witness for C7: the example run's hypotheses hold definitionally and its
result fields are normalized. -/
theorem C7_fields_normalized_witness :
    happyOracle.goto 1 = .ok (some 200) ∧
    (∀ p, (extractPageMetadata happyOracle).result = .ok p →
      NormalizedStr p.title ∧ NormalizedStr p.metaDescription ∧ NormalizedStr p.h1) :=
  ⟨rfl, (C7_fields_normalized happyOracle exampleDom (some 200) rfl rfl rfl rfl rfl).1⟩

/-! ### Request-handler theorems -/

/-- C6: whenever the `url` parameter is missing, empty, unparsable, or parses
to a scheme other than `http`/`https`, `GET` returns the 400
`{ error: "Invalid URL" }` response at once, with no browser launch, no
navigation attempt and no session teardown. -/
theorem C6_invalid_url (parse : String → Option ParsedUrl) (o : BrowserOracle)
    (order : List GuardEvent) (target : Option String)
    (h : target = none ∨
      ∃ u, target = some u ∧ (u = "" ∨ isValidHttpUrl parse u = false)) :
    GET parse o order target =
      { response := some invalidUrlResponse
      , launchCalls := 0, navCalls := [], closeCalls := 0 } := by
  rcases h with rfl | ⟨u, rfl, hu⟩
  · rfl
  · rcases hu with rfl | hu
    · rfl
    · simp [GET, hu]

/-- Witness for C6: an `ftp:` URL is rejected with the invalid-URL response
and zero browser-capability calls. -/
theorem C6_invalid_url_witness :
    (some "ftp://files.example/" = (none : Option String) ∨
      ∃ u, some "ftp://files.example/" = some u ∧
        (u = "" ∨ isValidHttpUrl parseStub u = false)) ∧
    GET parseStub happyOracle raceOpFirst (some "ftp://files.example/") =
      { response := some invalidUrlResponse
      , launchCalls := 0, navCalls := [], closeCalls := 0 } :=
  ⟨Or.inr ⟨_, rfl, Or.inr rfl⟩,
   C6_invalid_url parseStub happyOracle raceOpFirst _ (Or.inr ⟨_, rfl, Or.inr rfl⟩)⟩

/-- C4 fails as stated: a session-acquisition failure (the `ExtractionFailed`
kind) and a navigation-retry exhaustion (the `NavigationFailed` kind) reach
the extractor as different errors, yet the handler maps both to the identical
generic 500 response, so the caller cannot distinguish these two branches by
any status or category. -/
theorem C4_counterexample :
    (GET parseStub launchFailOracle raceOpFirst (some "https://ok.example/")).response =
      (GET parseStub navFailOracle raceOpFirst (some "https://ok.example/")).response ∧
    (GET parseStub launchFailOracle raceOpFirst (some "https://ok.example/")).response =
      some { status := 500, body := .errorBody "Unable to complete scrape" } ∧
    (extractPageMetadata launchFailOracle).result ≠
      (extractPageMetadata navFailOracle).result := by
  refine ⟨?_, ?_, ?_⟩ <;> decide

/-- C4 (amended): session-acquisition failures and navigation exhaustion each
propagate to the handler unchanged; the handler maps success to 200,
the guard's `RequestTimeoutError` to the 504 timeout response, and every
other error — both failure kinds included — to the single generic 500
response, the three mapped categories having stable, pairwise-distinct
status codes. -/
theorem C4_outcome_mapping :
    (∀ (o : BrowserOracle) (e : JsError), o.launch = .error e →
      (extractPageMetadata o).result = .error e) ∧
    (∀ (o : BrowserOracle) (e₁ e₂ : JsError), o.launch = Except.ok () →
      o.newContext = Except.ok () → o.newPage = Except.ok () →
      o.goto 1 = .error e₁ → o.goto 2 = .error e₂ →
      (extractPageMetadata o).result = .error e₂) ∧
    (∀ (parse : String → Option ParsedUrl) (o : BrowserOracle)
        (rest : List GuardEvent) (u : String) (p : PageResponse),
      u ≠ "" → isValidHttpUrl parse u = true →
      (extractPageMetadata o).result = .ok p →
      (GET parse o (GuardEvent.opSettles :: rest) (some u)).response =
        some { status := 200, body := .payload p }) ∧
    (∀ (parse : String → Option ParsedUrl) (o : BrowserOracle)
        (rest : List GuardEvent) (u : String) (e : JsError),
      u ≠ "" → isValidHttpUrl parse u = true →
      (extractPageMetadata o).result = .error e → e ≠ .requestTimeout →
      (GET parse o (GuardEvent.opSettles :: rest) (some u)).response =
        some { status := 500, body := .errorBody "Unable to complete scrape" }) ∧
    (∀ (parse : String → Option ParsedUrl) (o : BrowserOracle)
        (rest : List GuardEvent) (u : String),
      u ≠ "" → isValidHttpUrl parse u = true →
      (GET parse o (GuardEvent.timerFires :: rest) (some u)).response =
        some timeoutResponse) ∧
    (timeoutResponse.status = 504 ∧ invalidUrlResponse.status = 400 ∧
      (504 : Nat) ≠ 500 ∧ (200 : Nat) ≠ 500 ∧ (200 : Nat) ≠ 504) := by
  refine ⟨?_, ?_, ?_, ?_, ?_, by decide⟩
  · intro o e h
    simp [extractPageMetadata, h]
  · intro o e₁ e₂ hL hC hP h1 h2
    cases hc : o.close <;>
      simp [extractPageMetadata, extractAttempt, navigateWithRetry, navLoop,
        hL, hC, hP, h1, h2, hc]
  · intro parse o rest u p hne hv hok
    simp [GET, hne, hv, withTimeout_opSettles_first, hok]
  · intro parse o rest u e hne hv herr hnt
    cases e with
    | requestTimeout => exact absurd rfl hnt
    | error m => simp [GET, hne, hv, withTimeout_opSettles_first, herr]
    | thrown m => simp [GET, hne, hv, withTimeout_opSettles_first, herr]
  · intro parse o rest u hne hv
    simp [GET, hne, hv, withTimeout_timerFires_first]

/-- Witness for C4 (amended): concrete instances of the launch-failure
propagation and of the timeout mapping. -/
theorem C4_outcome_mapping_witness :
    launchFailOracle.launch =
      .error (.error "browserType.launch: Executable does not exist") ∧
    (extractPageMetadata launchFailOracle).result =
      .error (.error "browserType.launch: Executable does not exist") ∧
    (GET parseStub happyOracle [GuardEvent.timerFires, GuardEvent.opSettles]
        (some "https://ok.example/")).response = some timeoutResponse :=
  ⟨rfl, C4_outcome_mapping.1 launchFailOracle _ rfl,
   C4_outcome_mapping.2.2.2.2.1 parseStub happyOracle [GuardEvent.opSettles]
     "https://ok.example/" (by decide) rfl⟩

end Scraper
